/-
Verification of the shared core of the `speech-to-text` repository:
the audio-format handler (interface + mock), the speech-to-text model
(interface + mock), and the self-validating domain records.

The Python sources under `src/shared/src/` are embedded shallowly:
  * exceptions become an inductive `PyErr` carrying the message string;
  * fallible methods return `Except PyErr α`;
  * the mock handler's configuration (`MockAudioFormatHandler.__init__`)
    becomes the structure `HandlerCfg`; Python dicts become association
    lists with first-match lookup and in-place update, preserving
    insertion order (Python 3.7+ dict semantics);
  * `os.path.exists` is modelled as membership in an environment-supplied
    list of really-existing paths (`HandlerCfg.real_files`);
  * `random.random()` / `random.uniform` draws are passed in explicitly
    as a `Draws` record;
  * simulated `asyncio.sleep` delays are tracked by a Boolean flag that
    records whether execution reached the sleep with a positive delay;
  * Python floats in the configuration are modelled as rationals
    (the literals involved — 1.5, 0.1, bounds 0.0/1.0 — are exact);
  * `str.lower()` is modelled as ASCII lowercasing, with which Python
    agrees on all ASCII input (the format names and paths at issue);
  * `dataclass` `__post_init__` validation becomes a smart constructor
    returning `Except PyErr`; the opaque `model_config`/`metadata`
    mappings and timestamps, which are never validated or consumed by
    the verified operations, are elided from the records.
-/
import Mathlib

namespace STT

/-! ### Exceptions (`src/shared/src/exceptions.py`)

Every exception kind keeps its message; `STTException.__init__` stores the
message, so Python's `str(e)` is that message for all the kinds below
(likewise for `FileNotFoundError` and `ValueError`, whose `str` is the
message they were constructed with). The `error_code` attribute is a fixed
function of the kind and is left implicit. -/

inductive PyErr : Type
  | fileNotFound (msg : String)
  | audioFormatError (msg : String)
  | validationError (msg : String)
  | modelLoadError (msg : String)
  | transcriptionError (msg : String)
  | valueError (msg : String)
deriving DecidableEq, Repr

/-- Python's `str(e)`: the stored message. -/
def PyErr.str : PyErr → String
  | .fileNotFound m => m
  | .audioFormatError m => m
  | .validationError m => m
  | .modelLoadError m => m
  | .transcriptionError m => m
  | .valueError m => m

/-- `true` on `Except.ok` (success of a Python call that did not raise). -/
def pyOk {α : Type} : Except PyErr α → Bool
  | .ok _ => true
  | .error _ => false

instance {ε α : Type} [DecidableEq ε] [DecidableEq α] : DecidableEq (Except ε α) := fun
  | .ok a, .ok b => decidable_of_iff (a = b) (by simp)
  | .ok _, .error _ => isFalse (by simp)
  | .error _, .ok _ => isFalse (by simp)
  | .error a, .error b => decidable_of_iff (a = b) (by simp)

/-! ### String helpers mirroring the Python operations used by the code -/

/-- ASCII lowercasing of one character (what `str.lower()` does on ASCII). -/
def lowerChar (c : Char) : Char :=
  if 'A' ≤ c ∧ c ≤ 'Z' then Char.ofNat (c.toNat + 32) else c

/-- Python `s.lower()` (the inputs at issue are ASCII). -/
def pyLower (s : String) : String := ⟨s.toList.map lowerChar⟩

/-- Python `needle in hay` on strings: substring test. -/
def substrIn (needle hay : String) : Bool :=
  (List.range (hay.length + 1)).any
    (fun i => (hay.toList.drop i).take needle.length == needle.toList)

/-- Index of the last occurrence of `c` in `l`, as Python `str.rfind`:
`-1` when absent. -/
def rfindChar (c : Char) (l : List Char) : Int :=
  match l with
  | [] => -1
  | x :: xs =>
    let r := rfindChar c xs
    if r ≥ 0 then r + 1 else if x = c then 0 else -1

/-- `os.path.splitext(p)`: position of the dot starting the extension, or
`none`.  Faithful to CPython `genericpath._splitext`: the extension starts at
the last `.` lying after the last `/`, provided some character strictly
between the last `/` and that `.` is not itself a `.` (leading dots of the
basename never start an extension). -/
def splitextDot (p : String) : Option Nat :=
  let l := p.toList
  let sep := rfindChar '/' l
  let dot := rfindChar '.' l
  if dot > sep ∧
      (List.range l.length).any
        (fun i => decide (sep < (i : Int) ∧ (i : Int) < dot ∧ l.getD i ' ' ≠ '.'))
  then some dot.toNat else none

/-- The `ext` component of `os.path.splitext(p)` (includes the dot;
empty when there is no extension). -/
def splitextExt (p : String) : String :=
  match splitextDot p with
  | some d => ⟨p.toList.drop d⟩
  | none => ""

/-- The `root` component of `os.path.splitext(p)`. -/
def splitextRoot (p : String) : String :=
  match splitextDot p with
  | some d => ⟨p.toList.take d⟩
  | none => p

/-- Python `ext[1:]` on the extension string (drops the dot). -/
def dropDot (ext : String) : String := ⟨ext.toList.drop 1⟩

/-- Python `path.lower().split("/")[-1] if "/" in path else path.lower()`
(from `MockSpeechToTextModel._get_response_key`): everything after the
last `/` of the lowercased path. -/
def lastPathComponent (p : String) : String :=
  let l := (pyLower p).toList
  ⟨l.drop ((rfindChar '/' l) + 1).toNat⟩

/-- Python `p.startswith(pre)`. -/
def pyStartsWith (p pre : String) : Bool := pre.toList.isPrefixOf p.toList

/-! ### Python dicts as insertion-ordered association lists -/

/-- `d.get(k)`: first (unique) binding of `k`. -/
def dGet (d : List (String × String)) (k : String) : Option String :=
  (d.find? (fun kv => kv.1 == k)).map (·.2)

/-- `d[k] = v`: replace in place when the key exists, else append
(Python dicts preserve insertion order). -/
def dSet (d : List (String × String)) (k v : String) : List (String × String) :=
  if d.any (fun kv => kv.1 == k) then
    d.map (fun kv => if kv.1 == k then (kv.1, v) else kv)
  else d ++ [(k, v)]

/-- `d.update(new)`. -/
def dUpdate (d new : List (String × String)) : List (String × String) :=
  new.foldl (fun acc kv => dSet acc kv.1 kv.2) d

/-! ### Supported formats
(`AudioFormatHandler.SUPPORTED_FORMATS`, `AudioRequest.SUPPORTED_AUDIO_FORMATS`
and `MockSpeechToTextModel._supported_formats` are the same literal list) -/

def SUPPORTED_FORMATS : List String := ["wav", "mp3", "mp4", "m4a", "flac", "ogg"]

def SUPPORTED_OUTPUT_FORMATS : List String := ["text", "json"]

/-- `MockAudioFormatHandler.is_format_supported`:
`format_name.lower() in [fmt.lower() for fmt in self.SUPPORTED_FORMATS]`. -/
def is_format_supported (format_name : String) : Bool :=
  (SUPPORTED_FORMATS.map pyLower).contains (pyLower format_name)

/-- Python `str` of a list of strings as interpolated into the f-string
error messages: `"['wav', 'mp3', ...]"`. -/
def pyListRepr (l : List String) : String :=
  let rec inner : List String → String
    | [] => ""
    | [x] => "'" ++ x ++ "'"
    | x :: xs => "'" ++ x ++ "', " ++ inner xs
  "[" ++ inner l ++ "]"

/-! ### Domain records (`src/shared/src/models.py`)

Construction with `__post_init__` validation is a smart constructor
returning `Except`; a Python construction that raises `ValueError`
corresponds to `Except.error (.valueError _)`.  The `isinstance` number
checks hold by typing in this model (confidence and processing_time are
rationals). -/

structure AudioRequest : Type where
  file_path : String
  audio_format : String
  output_format : String
deriving DecidableEq, Repr

/-- `AudioRequest(file_path, audio_format, output_format)` including
`__post_init__` (`models.py` lines 27–36). Python's default for
`output_format` is `"text"`. -/
def AudioRequest.make (file_path audio_format output_format : String) :
    Except PyErr AudioRequest :=
  if file_path = "" then
    .error (.valueError "file_path cannot be empty")
  else if ¬ SUPPORTED_FORMATS.contains (pyLower audio_format) then
    .error (.valueError s!"Unsupported audio format: {audio_format}")
  else if ¬ SUPPORTED_OUTPUT_FORMATS.contains output_format then
    .error (.valueError s!"Unsupported output format: {output_format}")
  else
    .ok { file_path := file_path, audio_format := audio_format,
          output_format := output_format }

structure TranscriptionResult : Type where
  text : String
  confidence : ℚ
  processing_time : ℚ
  model_used : String
deriving DecidableEq, Repr

/-- `TranscriptionResult(text, confidence, processing_time, model_used)`
including `__post_init__` (`models.py` lines 50–64). -/
def TranscriptionResult.make (text : String) (confidence processing_time : ℚ)
    (model_used : String) : Except PyErr TranscriptionResult :=
  if ¬ (0 ≤ confidence ∧ confidence ≤ 1) then
    .error (.valueError "confidence must be a number between 0.0 and 1.0")
  else if processing_time < 0 then
    .error (.valueError "processing_time must be a non-negative number")
  else if model_used = "" then
    .error (.valueError "model_used cannot be empty")
  else
    .ok { text := text, confidence := confidence,
          processing_time := processing_time, model_used := model_used }

/-! ### Mock audio format handler
(`src/shared/src/mock_audio_format_handler.py`) -/

/-- The mock handler's state, as set up by `MockAudioFormatHandler.__init__`
from its `config` dictionary, plus the `real_files` environment modelling
`os.path.exists`. -/
structure HandlerCfg : Type where
  simulate_file_not_found : Bool
  simulate_format_detection_error : Bool
  simulate_conversion_error : Bool
  conversion_delay : ℚ
  mock_file_formats : List (String × String)
  mock_conversions : List (String × String)
  mock_existing_files : List String
  real_files : List String

/-- `MockAudioFormatHandler._file_exists` (lines 245–266). -/
def fileExists (cfg : HandlerCfg) (file_path : String) : Bool :=
  if cfg.mock_existing_files.contains file_path then true
  else
    let ext := splitextExt file_path
    if ext ≠ "" ∧ is_format_supported (dropDot ext) ∧
        (substrIn "/test/" file_path ∨ pyStartsWith file_path "test_") then
      true
    else
      cfg.real_files.contains file_path

/-- `MockAudioFormatHandler.detect_format` (lines 88–124). -/
def detect_format (cfg : HandlerCfg) (file_path : String) : Except PyErr String :=
  if cfg.simulate_file_not_found ∨ ¬ fileExists cfg file_path then
    .error (.fileNotFound s!"Audio file not found: {file_path}")
  else if cfg.simulate_format_detection_error then
    .error (.audioFormatError s!"Mock format detection error for file: {file_path}")
  else
    match dGet cfg.mock_file_formats file_path with
    | some fmt => .ok fmt
    | none =>
      let ext := splitextExt file_path
      if ext ≠ "" then
        let format_name := pyLower (dropDot ext)
        if is_format_supported format_name then .ok format_name else .ok "wav"
      else .ok "wav"

/-- `MockAudioFormatHandler.validate_format` (lines 55–86): the
`try/except AudioFormatError: return False` around detection catches only
that kind; anything else propagates. -/
def validate_format (cfg : HandlerCfg) (file_path : String)
    (expected_format : Option String) : Except PyErr Bool :=
  if cfg.simulate_file_not_found ∨ ¬ fileExists cfg file_path then
    .error (.fileNotFound s!"Audio file not found: {file_path}")
  else
    match detect_format cfg file_path with
    | .error (.audioFormatError _) => .ok false
    | .error e => .error e
    | .ok detected =>
      match expected_format with
      | none => .ok (is_format_supported detected)
      | some exp => .ok (pyLower detected == pyLower exp)

/-- `MockAudioFormatHandler.convert_if_needed` (lines 126–184).  The second
component records whether execution reached the simulated-delay
`asyncio.sleep` with a positive `conversion_delay`. -/
def convert_if_needed (cfg : HandlerCfg) (file_path target_format : String) :
    Except PyErr String × Bool :=
  if cfg.simulate_file_not_found ∨ ¬ fileExists cfg file_path then
    (.error (.fileNotFound s!"Audio file not found: {file_path}"), false)
  else if cfg.simulate_conversion_error then
    (.error (.audioFormatError s!"Mock conversion error for file: {file_path}"), false)
  else if ¬ is_format_supported target_format then
    (.error (.audioFormatError ("Target format '" ++ target_format ++
      "' not supported. Supported formats: " ++ pyListRepr SUPPORTED_FORMATS)), false)
  else
    match detect_format cfg file_path with
    | .error e => (.error e, false)
    | .ok current_format =>
      if pyLower current_format == pyLower target_format then
        (.ok file_path, false)
      else
        let delayed := decide (0 < cfg.conversion_delay)
        match dGet cfg.mock_conversions (file_path ++ "->" ++ target_format) with
        | some out => (.ok out, delayed)
        | none => (.ok (splitextRoot file_path ++ "_converted." ++ target_format), delayed)

/-- `MockAudioFormatHandler.validate_audio_request` (lines 368–403).  The
whole detection-and-mismatch block sits inside `try: ... except Exception
as e: raise ValidationError(f"Failed to validate audio file: {str(e)}")`,
so every exception it raises — including the mismatch `AudioFormatError` —
is re-raised as `ValidationError`. -/
def validate_audio_request (cfg : HandlerCfg) (request : AudioRequest) :
    Except PyErr Unit :=
  if ¬ fileExists cfg request.file_path then
    .error (.validationError s!"Audio file not found: {request.file_path}")
  else if ¬ is_format_supported request.audio_format then
    .error (.audioFormatError ("Audio format '" ++ request.audio_format ++
      "' not supported. Supported formats: " ++ pyListRepr SUPPORTED_FORMATS))
  else
    let tryBlock : Except PyErr Unit :=
      match detect_format cfg request.file_path with
      | .error e => .error e
      | .ok detected_format =>
        if pyLower detected_format ≠ pyLower request.audio_format then
          .error (.audioFormatError ("File format mismatch. Declared: '" ++
            request.audio_format ++ "', Detected: '" ++ detected_format ++ "'"))
        else .ok ()
    match tryBlock with
    | .ok u => .ok u
    | .error e => .error (.validationError ("Failed to validate audio file: " ++ e.str))

/-! ### `get_conversion_info` (`interfaces/audio_format.py`, lines 169–215) -/

structure ConversionInfo : Type where
  needed : Bool
  supported : Bool
  quality_loss : Bool
  estimated_time : ℚ
deriving DecidableEq, Repr

def lossy_formats : List String := ["mp3", "m4a", "ogg"]
def lossless_formats : List String := ["wav", "flac"]

/-- `AudioFormatHandler.get_conversion_info`, transcribed clause by clause. -/
def get_conversion_info (source_format target_format : String) : ConversionInfo :=
  let conversion_needed : Bool := pyLower source_format ≠ pyLower target_format
  let source_lossy : Bool := lossy_formats.contains (pyLower source_format)
  let target_lossy : Bool := lossy_formats.contains (pyLower target_format)
  let quality_loss : Bool :=
    if conversion_needed then
      if (lossless_formats.contains (pyLower source_format) ∧ target_lossy) ∨
          (source_lossy ∧ target_lossy ∧ pyLower source_format ≠ pyLower target_format)
      then true else false
    else false
  { needed := conversion_needed
    supported := is_format_supported source_format ∧ is_format_supported target_format
    quality_loss := quality_loss
    estimated_time := if conversion_needed then 3/2 else 1/10 }

/-- The record the spec's words describe (`spec.md` §4.2, `get_conversion_info`
bullet): `needed` = formats differ case-insensitively; `supported` = both
individually supported; `quality_loss` = needed AND (lossless source with
lossy target, or two distinct lossy formats); `estimated_time` = 1.5 when
needed else 0.1. -/
def conversionInfoSpec (source target : String) : ConversionInfo :=
  let needed : Bool := pyLower source ≠ pyLower target
  { needed := needed
    supported := is_format_supported source ∧ is_format_supported target
    quality_loss := needed ∧
      ((lossless_formats.contains (pyLower source) ∧ lossy_formats.contains (pyLower target)) ∨
        (lossy_formats.contains (pyLower source) ∧ lossy_formats.contains (pyLower target) ∧
          pyLower source ≠ pyLower target))
    estimated_time := if needed then 3/2 else 1/10 }

/-! ### Mock speech-to-text model
(`src/shared/src/mock_stt_model.py` and `interfaces/stt_model.py`) -/

/-- The canned responses installed by `MockSpeechToTextModel.__init__`
before the `update` with the configured custom responses. -/
def defaultResponses : List (String × String) :=
  [("default", "This is a mock transcription result."),
   ("empty", ""),
   ("long", "This is a very long mock transcription result that simulates " ++
     "processing of lengthy audio files with multiple sentences and " ++
     "complex content to test system behavior with larger outputs.")]

/-- The mock model's state: the fields set by `SpeechToTextModel.__init__`
(`_is_loaded`) and `MockSpeechToTextModel.__init__` from
`config.parameters`. -/
structure ModelState : Type where
  is_loaded : Bool
  mock_responses : List (String × String)
  custom_responses : List (String × String)
  processing_delay : ℚ
  error_rate : ℚ
  confidence_lo : ℚ
  confidence_hi : ℚ
  simulate_load_failure : Bool
  model_type : String
  supported_formats : List String
deriving DecidableEq, Repr

/-- The mock-relevant entries of `ModelConfig.parameters`, after the
`params.get(..., default)` resolution performed in
`MockSpeechToTextModel.__init__` (absent keys already replaced by their
defaults: delay 0.1, error rate 0.0, confidence range (0.85, 0.95), no
custom responses, no load failure). -/
structure ModelParams : Type where
  processing_delay : ℚ
  error_rate : ℚ
  confidence_lo : ℚ
  confidence_hi : ℚ
  custom_responses : List (String × String)
  simulate_load_failure : Bool
  model_type : String

/-- A fresh `MockSpeechToTextModel(config)`:
`SpeechToTextModel.__init__` sets `_is_loaded = False`, then the mock's
`__init__` installs the canned responses, merges the custom responses into
them, and fixes the supported-format list. -/
def mkModel (p : ModelParams) : ModelState :=
  { is_loaded := false
    mock_responses := dUpdate defaultResponses p.custom_responses
    custom_responses := p.custom_responses
    processing_delay := p.processing_delay
    error_rate := p.error_rate
    confidence_lo := p.confidence_lo
    confidence_hi := p.confidence_hi
    simulate_load_failure := p.simulate_load_failure
    model_type := p.model_type
    supported_formats := SUPPORTED_FORMATS }

/-- `MockSpeechToTextModel._get_response_key` (lines 198–223). -/
def get_response_key (st : ModelState) (file_path : String) : String :=
  let filename := lastPathComponent file_path
  if substrIn "empty" filename ∨ substrIn "silent" filename then "empty"
  else if substrIn "long" filename ∨ substrIn "extended" filename then "long"
  else
    match st.custom_responses.find? (fun kv => substrIn kv.1 filename) with
    | some kv => kv.1
    | none => "default"

/-- The merged response table of a model built from `p`: the canned
responses updated with the configured custom responses
(`self._mock_responses` right after `__init__`). -/
def mergedResponses (p : ModelParams) : List (String × String) :=
  dUpdate defaultResponses p.custom_responses

/-- The text a response key resolves to: the merged table's entry for the
key, falling back to the table's `"default"` entry (Python
`self._mock_responses.get(key, self._mock_responses["default"])`; the final
`""` fallback is unreachable since `"default"` is always present). -/
def responseFor (p : ModelParams) (key : String) : String :=
  (dGet (mergedResponses p) key).getD ((dGet (mergedResponses p) "default").getD "")

/-- `SpeechToTextModel.validate_request` (`interfaces/stt_model.py`,
lines 115–137): the load-state check comes first, then the
instance-supported-format check. -/
def validate_request (st : ModelState) (request : AudioRequest) :
    Except PyErr Unit :=
  if ¬ st.is_loaded then
    .error (.modelLoadError "Model must be loaded before processing requests")
  else if ¬ st.supported_formats.contains (pyLower request.audio_format) then
    .error (.audioFormatError ("Audio format '" ++ request.audio_format ++
      "' not supported. Supported formats: " ++ pyListRepr st.supported_formats))
  else .ok ()

/-- The random draws consumed by one `transcribe` call:
`random.random()` for the error gate and the two `random.uniform` calls. -/
structure Draws : Type where
  error_draw : ℚ
  confidence_draw : ℚ
  time_draw : ℚ

/-- `MockSpeechToTextModel.transcribe` (lines 57–111).  The second component
records whether execution reached the simulated-delay `asyncio.sleep` with a
positive `processing_delay`.  The final `TranscriptionResult(...)`
construction runs the dataclass validation, so it goes through
`TranscriptionResult.make`.  (`self._mock_responses["default"]`, the
dictionary-lookup default, exists in every state built by `mkModel`; the
`getD ""` fallback below is unreachable there.) -/
def transcribe (st : ModelState) (request : AudioRequest) (rnd : Draws) :
    Except PyErr TranscriptionResult × Bool :=
  match validate_request st request with
  | .error e => (.error e, false)
  | .ok _ =>
    let delayed := decide (0 < st.processing_delay)
    if rnd.error_draw < st.error_rate then
      (.error (.transcriptionError "Mock transcription error simulation"), delayed)
    else
      let response_key := get_response_key st request.file_path
      let mock_text := (dGet st.mock_responses response_key).getD
        ((dGet st.mock_responses "default").getD "")
      (TranscriptionResult.make mock_text rnd.confidence_draw
        (st.processing_delay + rnd.time_draw) ("mock-" ++ st.model_type), delayed)

/-- `MockSpeechToTextModel.load_model` (lines 172–196): on simulated
failure raises `ModelLoadError` leaving the state untouched; otherwise
sets `_is_loaded = True`. -/
def load_model (st : ModelState) : Except PyErr Unit × ModelState :=
  if st.simulate_load_failure then
    (.error (.modelLoadError "Mock model load failure simulation"), st)
  else
    (.ok (), { st with is_loaded := true })

/-- `MockSpeechToTextModel.unload_model` (lines 190–196): always succeeds
and sets `_is_loaded = False`. -/
def unload_model (st : ModelState) : ModelState :=
  { st with is_loaded := false }

/-! ### Heap model for the list-copy discipline of `get_supported_formats`

Both `AudioFormatHandler.get_supported_formats` (`self.SUPPORTED_FORMATS.copy()`)
and `MockSpeechToTextModel.get_supported_formats`
(`self._supported_formats.copy()`) return `list.copy()` of the internal
list.  Python list mutation is aliasing on a heap, so this is modelled
explicitly: references are `Nat`, the heap maps references to list values,
the handler/model owns `internal_ref`, and `copy()` allocates a fresh
reference holding the same value. -/

structure ListHeap : Type where
  store : Nat → List String
  internal_ref : Nat
  next_ref : Nat

def heapRead (h : ListHeap) (r : Nat) : List String := h.store r

/-- An in-place mutation (`lst[i] = ...`, `append`, `clear`, ...) of the
list object behind reference `r`: it may replace the value with anything. -/
def heapWrite (h : ListHeap) (r : Nat) (v : List String) : ListHeap :=
  { h with store := fun i => if i = r then v else h.store i }

/-- `get_supported_formats()`: returns `internal.copy()` — a freshly
allocated reference holding the current value of the internal list. -/
def get_supported_formats_copy (h : ListHeap) : Nat × ListHeap :=
  (h.next_ref,
   { store := fun i => if i = h.next_ref then h.store h.internal_ref else h.store i
     internal_ref := h.internal_ref
     next_ref := h.next_ref + 1 })

end STT

namespace STT

/-- **C2.** `get_conversion_info` agrees with the spec's description on every
pair of format strings, and the exhaustive quality-loss matrix over the six
supported formats holds: wav→mp3 lossy, mp3→wav not, mp3→ogg lossy,
wav→flac not, and X→X has `quality_loss = false` and `needed = false`. -/
theorem c2_get_conversion_info_spec :
    (∀ source target : String,
      get_conversion_info source target = conversionInfoSpec source target) ∧
    (get_conversion_info "wav" "mp3").quality_loss = true ∧
    (get_conversion_info "mp3" "wav").quality_loss = false ∧
    (get_conversion_info "mp3" "ogg").quality_loss = true ∧
    (get_conversion_info "wav" "flac").quality_loss = false ∧
    (∀ x ∈ SUPPORTED_FORMATS,
      (get_conversion_info x x).quality_loss = false ∧
        (get_conversion_info x x).needed = false) := by
  refine ⟨?_, by decide, by decide, by decide, by decide, by decide⟩
  intro source target
  simp only [get_conversion_info, conversionInfoSpec]
  by_cases h : pyLower source = pyLower target <;>
    by_cases hq : (lossless_formats.contains (pyLower source) = true ∧
        lossy_formats.contains (pyLower target) = true) ∨
      (lossy_formats.contains (pyLower source) = true ∧
        lossy_formats.contains (pyLower target) = true ∧
        ¬ pyLower source = pyLower target) <;>
    simp [h, hq]

/-- Witness for C2, discharging the matrix membership at `"wav"`. -/
theorem c2_get_conversion_info_spec_witness :
    "wav" ∈ SUPPORTED_FORMATS ∧
    (get_conversion_info "wav" "wav").quality_loss = false ∧
    (get_conversion_info "wav" "wav").needed = false :=
  ⟨by decide, c2_get_conversion_info_spec.2.2.2.2.2 "wav" (by decide)⟩

/-- **C3.** Calling `transcribe` on an Unloaded instance always fails with
`ModelLoadError`, whatever the request and whatever the random draws: the
load-state check precedes the format check, the simulated delay (the flag is
`false`: the sleep is never reached) and the stochastic error gate. -/
theorem c3_transcribe_unloaded_fails (st : ModelState) (request : AudioRequest)
    (rnd : Draws) (h : st.is_loaded = false) :
    transcribe st request rnd =
      (.error (.modelLoadError "Model must be loaded before processing requests"),
        false) := by
  simp [transcribe, validate_request, h]

/-- Witness for C3: a fresh mock model (default parameters) is Unloaded, and
`transcribe` on it fails with `ModelLoadError` without reaching the delay. -/
theorem c3_transcribe_unloaded_fails_witness :
    transcribe (mkModel ⟨1/10, 0, 85/100, 95/100, [], false, "mock"⟩)
        { file_path := "/test/audio.wav", audio_format := "wav", output_format := "text" }
        ⟨1/2, 9/10, 1/100⟩ =
      (.error (.modelLoadError "Model must be loaded before processing requests"),
        false) :=
  c3_transcribe_unloaded_fails _ _ _ rfl

/-- **C4.** The load state is a two-state machine reported by `is_loaded`:
a fresh instance is Unloaded; `load_model` fails with `ModelLoadError`
leaving the state untouched exactly when failure is simulated, and
otherwise succeeds leaving the instance Loaded; `unload_model` always
leaves the instance Unloaded and is idempotent. -/
theorem c4_load_state_machine :
    (∀ p : ModelParams, (mkModel p).is_loaded = false) ∧
    (∀ st : ModelState, st.simulate_load_failure = true →
      load_model st =
        (.error (.modelLoadError "Mock model load failure simulation"), st)) ∧
    (∀ st : ModelState, st.simulate_load_failure = false →
      (load_model st).1 = .ok () ∧ (load_model st).2.is_loaded = true) ∧
    (∀ st : ModelState, (unload_model st).is_loaded = false ∧
      unload_model (unload_model st) = unload_model st) := by
  refine ⟨fun _ => rfl, fun st h => ?_, fun st h => ?_, fun st => ⟨rfl, rfl⟩⟩
  · simp [load_model, h]
  · simp [load_model, h]

/-- Witness for C4: at a concrete configuration, simulated failure leaves a
fresh instance Unloaded with its state unchanged, and without it loading
succeeds and reports Loaded. -/
theorem c4_load_state_machine_witness :
    load_model (mkModel ⟨1/10, 0, 85/100, 95/100, [], true, "mock"⟩) =
      (.error (.modelLoadError "Mock model load failure simulation"),
        mkModel ⟨1/10, 0, 85/100, 95/100, [], true, "mock"⟩) ∧
    (load_model (mkModel ⟨1/10, 0, 85/100, 95/100, [], false, "mock"⟩)).1 = .ok () ∧
    (load_model (mkModel ⟨1/10, 0, 85/100, 95/100, [], false, "mock"⟩)).2.is_loaded = true :=
  ⟨c4_load_state_machine.2.1 _ rfl,
    (c4_load_state_machine.2.2.1 _ rfl).1,
    (c4_load_state_machine.2.2.1 _ rfl).2⟩

/-- **C9.** `get_supported_formats` returns a fresh copy on every call: the
returned reference is distinct from the internal one, mutating the returned
list (to an arbitrary value `v`) leaves the internal list unchanged, and a
subsequent call still returns the original contents. -/
theorem c9_supported_formats_fresh_copy (h : ListHeap)
    (hinv : h.internal_ref < h.next_ref) (v : List String) :
    ((get_supported_formats_copy h).1 ≠ h.internal_ref) ∧
    (heapRead (heapWrite (get_supported_formats_copy h).2
        (get_supported_formats_copy h).1 v) h.internal_ref
      = heapRead h h.internal_ref) ∧
    (heapRead (get_supported_formats_copy (heapWrite (get_supported_formats_copy h).2
          (get_supported_formats_copy h).1 v)).2
        (get_supported_formats_copy (heapWrite (get_supported_formats_copy h).2
          (get_supported_formats_copy h).1 v)).1
      = heapRead h h.internal_ref) := by
  have hne : h.internal_ref ≠ h.next_ref := Nat.ne_of_lt hinv
  refine ⟨fun he => hne he.symm, ?_, ?_⟩ <;>
    simp [get_supported_formats_copy, heapWrite, heapRead, hne]

/-- Witness for C9: on a one-object heap holding `["wav"]`, after the caller
clears the returned copy, a second call still sees `["wav"]`. -/
theorem c9_supported_formats_fresh_copy_witness :
    ((get_supported_formats_copy (ListHeap.mk (fun _ => ["wav"]) 0 1)).1 ≠ 0) ∧
    (heapRead (heapWrite (get_supported_formats_copy (ListHeap.mk (fun _ => ["wav"]) 0 1)).2
        (get_supported_formats_copy (ListHeap.mk (fun _ => ["wav"]) 0 1)).1 []) 0
      = heapRead (ListHeap.mk (fun _ => ["wav"]) 0 1) 0) ∧
    (heapRead (get_supported_formats_copy
          (heapWrite (get_supported_formats_copy (ListHeap.mk (fun _ => ["wav"]) 0 1)).2
            (get_supported_formats_copy (ListHeap.mk (fun _ => ["wav"]) 0 1)).1 [])).2
        (get_supported_formats_copy
          (heapWrite (get_supported_formats_copy (ListHeap.mk (fun _ => ["wav"]) 0 1)).2
            (get_supported_formats_copy (ListHeap.mk (fun _ => ["wav"]) 0 1)).1 [])).1
      = heapRead (ListHeap.mk (fun _ => ["wav"]) 0 1) 0) :=
  c9_supported_formats_fresh_copy (ListHeap.mk (fun _ => ["wav"]) 0 1) (by decide) []

/-- Helper: `detect_format` only ever raises `FileNotFoundError` or
`AudioFormatError`. -/
theorem detect_format_error_cases (cfg : HandlerCfg) (p : String) (e : PyErr)
    (h : detect_format cfg p = .error e) :
    (∃ m, e = .fileNotFound m) ∨ ∃ m, e = .audioFormatError m := by
  unfold detect_format at h
  split at h
  · injection h with h
    exact Or.inl ⟨_, h.symm⟩
  · split at h
    · injection h with h
      exact Or.inr ⟨_, h.symm⟩
    · split at h
      · injection h
      · dsimp only at h
        split at h
        · split at h
          · injection h
          · injection h
        · injection h

/-- **C10.** `validate_format` never propagates `AudioFormatError`: its only
possible failure is the file-not-found condition, and when the file passes
the existence check but detection is simulated to fail with
`AudioFormatError`, `validate_format` returns `false` instead of raising. -/
theorem c10_validate_format_no_audio_format_error :
    (∀ (cfg : HandlerCfg) (p : String) (exp : Option String),
      pyOk (validate_format cfg p exp) = true ∨
        ∃ m, validate_format cfg p exp = .error (.fileNotFound m)) ∧
    (∀ (cfg : HandlerCfg) (p : String) (exp : Option String),
      fileExists cfg p = true → cfg.simulate_file_not_found = false →
      cfg.simulate_format_detection_error = true →
      validate_format cfg p exp = .ok false) := by
  constructor
  · intro cfg p exp
    unfold validate_format
    split
    · exact Or.inr ⟨_, rfl⟩
    · cases hd : detect_format cfg p with
      | ok d => cases exp <;> simp [pyOk]
      | error e =>
        rcases detect_format_error_cases cfg p e hd with ⟨m, rfl⟩ | ⟨m, rfl⟩
        · exact Or.inr ⟨m, rfl⟩
        · simp [pyOk]
  · intro cfg p exp h1 h2 h3
    unfold validate_format detect_format
    simp [h1, h2, h3]

/-- Witness for C10: with the simulated undetectable-format condition
enabled on an existing mock file, `validate_format` returns `false`. -/
theorem c10_validate_format_no_audio_format_error_witness :
    validate_format
        (HandlerCfg.mk false true false (1/10) [] [] ["/data/song.bin"] [])
        "/data/song.bin" none
      = .ok false :=
  c10_validate_format_no_audio_format_error.2
    (HandlerCfg.mk false true false (1/10) [] [] ["/data/song.bin"] [])
    "/data/song.bin" none (by decide) rfl rfl

/-- **C7.** For an existing file with no simulated detection error,
`detect_format` resolves with the precedence: explicit mock mapping for the
exact path first; otherwise the (lowercased) file-name extension when that
extension is a supported format; otherwise the fixed fallback `"wav"`. -/
theorem c7_detect_format_precedence (cfg : HandlerCfg) (p : String)
    (hex : fileExists cfg p = true) (h1 : cfg.simulate_file_not_found = false)
    (h2 : cfg.simulate_format_detection_error = false) :
    (∀ f, dGet cfg.mock_file_formats p = some f → detect_format cfg p = .ok f) ∧
    (dGet cfg.mock_file_formats p = none → splitextExt p ≠ "" →
      is_format_supported (pyLower (dropDot (splitextExt p))) = true →
      detect_format cfg p = .ok (pyLower (dropDot (splitextExt p)))) ∧
    (dGet cfg.mock_file_formats p = none →
      (splitextExt p = "" ∨
        is_format_supported (pyLower (dropDot (splitextExt p))) = false) →
      detect_format cfg p = .ok "wav") := by
  refine ⟨fun f hf => ?_, fun hn he hs => ?_, fun hn hbad => ?_⟩ <;>
    unfold detect_format <;> simp [h1, h2, hex]
  · simp [hf]
  · simp [hn, he, hs]
  · rcases hbad with hbad | hbad <;> simp [hn, hbad]

/-- Witness for C7: an explicit mapping `"/test/a.ogg" → "flac"` wins over
the `.ogg` extension. -/
theorem c7_detect_format_precedence_witness :
    detect_format
        (HandlerCfg.mk false false false (1/10) [("/test/a.ogg", "flac")] [] [] [])
        "/test/a.ogg"
      = .ok "flac" :=
  (c7_detect_format_precedence
      (HandlerCfg.mk false false false (1/10) [("/test/a.ogg", "flac")] [] [] [])
      "/test/a.ogg" (by decide) rfl rfl).1 "flac" (by decide)

/-- **C5.** When no conversion error is simulated and the detected format of
an existing file already matches the (supported) target case-insensitively,
`convert_if_needed` returns exactly the original path and never reaches the
simulated-delay step. -/
theorem c5_convert_roundtrip_identity (cfg : HandlerCfg) (p fmt d : String)
    (h1 : cfg.simulate_file_not_found = false) (hex : fileExists cfg p = true)
    (h2 : cfg.simulate_conversion_error = false)
    (hfmt : is_format_supported fmt = true)
    (hd : detect_format cfg p = .ok d) (heq : pyLower d = pyLower fmt) :
    convert_if_needed cfg p fmt = (.ok p, false) := by
  unfold convert_if_needed
  simp [h1, h2, hex, hfmt, hd, heq]

/-- Witness for C5: a `.wav` test file converted to target `"WAV"`
(case-insensitive match) comes back unchanged with no delay, even with a
positive configured conversion delay. -/
theorem c5_convert_roundtrip_identity_witness :
    convert_if_needed (HandlerCfg.mk false false false (1/10) [] [] [] [])
        "/test/audio.wav" "WAV"
      = (.ok "/test/audio.wav", false) :=
  c5_convert_roundtrip_identity
    (HandlerCfg.mk false false false (1/10) [] [] [] [])
    "/test/audio.wav" "WAV" "wav" rfl (by decide) rfl (by decide) (by decide) (by decide)

/-- Counterexample to **C1** as stated: `/test/audio.wav` exists for the
handler, its declared format `mp3` is supported, and detection returns
`wav` — a case-insensitive mismatch — yet `validate_audio_request` raises
`ValidationError` (wrapping the mismatch message), not `AudioFormatError`:
the mismatch `AudioFormatError` is raised inside the `try` block and caught
by `except Exception`. -/
theorem c1_counterexample :
    fileExists (HandlerCfg.mk false false false (1/10)
        [("/test/audio.wav", "wav")] [] ["/test/audio.wav"] []) "/test/audio.wav" = true ∧
    is_format_supported "mp3" = true ∧
    detect_format (HandlerCfg.mk false false false (1/10)
        [("/test/audio.wav", "wav")] [] ["/test/audio.wav"] []) "/test/audio.wav" = .ok "wav" ∧
    validate_audio_request
        (HandlerCfg.mk false false false (1/10)
          [("/test/audio.wav", "wav")] [] ["/test/audio.wav"] [])
        (AudioRequest.mk "/test/audio.wav" "mp3" "text") =
      .error (.validationError
        "Failed to validate audio file: File format mismatch. Declared: 'mp3', Detected: 'wav'") := by
  decide

/-- **C1 (amended).** On a detected-format mismatch (file present, declared
format supported), `validate_audio_request` raises `ValidationError` whose
message wraps the mismatch text — the mismatch `AudioFormatError` is
swallowed by the unexpected-failure wrapper — and `AudioFormatError`
escapes `validate_audio_request` only in the unsupported-declared-format
case. -/
theorem c1_validate_audio_request_amended :
    (∀ (cfg : HandlerCfg) (request : AudioRequest) (d : String),
      fileExists cfg request.file_path = true →
      is_format_supported request.audio_format = true →
      detect_format cfg request.file_path = .ok d →
      pyLower d ≠ pyLower request.audio_format →
      validate_audio_request cfg request =
        .error (.validationError ("Failed to validate audio file: " ++
          ("File format mismatch. Declared: '" ++ request.audio_format ++
            "', Detected: '" ++ d ++ "'")))) ∧
    (∀ (cfg : HandlerCfg) (request : AudioRequest) (m : String),
      validate_audio_request cfg request = .error (.audioFormatError m) →
      is_format_supported request.audio_format = false) := by
  constructor
  · intro cfg request d hex hfmt hd hne
    unfold validate_audio_request
    simp [hex, hfmt, hd, hne, PyErr.str]
  · intro cfg request m h
    unfold validate_audio_request at h
    split at h
    · injection h with h
      exact PyErr.noConfusion h
    · split at h
      · rename_i hc
        simp only [Bool.not_eq_true] at hc
        exact hc
      · dsimp only at h
        split at h
        · exact Except.noConfusion h
        · injection h with h
          exact PyErr.noConfusion h

/-- Witness for the amended C1, at the counterexample's input. -/
theorem c1_validate_audio_request_amended_witness :
    validate_audio_request
        (HandlerCfg.mk false false false (1/10)
          [("/test/audio.wav", "wav")] [] ["/test/audio.wav"] [])
        (AudioRequest.mk "/test/audio.wav" "mp3" "text") =
      .error (.validationError ("Failed to validate audio file: " ++
        ("File format mismatch. Declared: '" ++ "mp3" ++
          "', Detected: '" ++ "wav" ++ "'"))) :=
  c1_validate_audio_request_amended.1
    (HandlerCfg.mk false false false (1/10)
      [("/test/audio.wav", "wav")] [] ["/test/audio.wav"] [])
    (AudioRequest.mk "/test/audio.wav" "mp3" "text") "wav"
    (by decide) (by decide) (by decide) (by decide)

/-- Counterexample to **C8** as stated: `confidence = 1` lies in `[0, 1]`
and `processing_time = 1` is non-negative, yet the construction fails —
`__post_init__` also rejects an empty `model_used`, a condition the claim
omits. -/
theorem c8_counterexample :
    (0 ≤ (1 : ℚ) ∧ (1 : ℚ) ≤ 1) ∧ (0 : ℚ) ≤ (1 : ℚ) ∧
    TranscriptionResult.make "hello" 1 1 "" =
      .error (.valueError "model_used cannot be empty") := by
  decide

/-- **C8 (amended).** Construction validates and fails rather than
returning a partially-built object: `AudioRequest` succeeds iff `file_path`
is non-empty, `audio_format` is (case-insensitively) supported and
`output_format` is one of `{text, json}`; `TranscriptionResult` succeeds
iff `confidence ∈ [0, 1]`, `processing_time ≥ 0` and `model_used` is
non-empty. -/
theorem c8_construction_validation_amended :
    (∀ fp af of : String,
      pyOk (AudioRequest.make fp af of) = true ↔
        (fp ≠ "" ∧ SUPPORTED_FORMATS.contains (pyLower af) = true ∧
          SUPPORTED_OUTPUT_FORMATS.contains of = true)) ∧
    (∀ (t : String) (c pt : ℚ) (mu : String),
      pyOk (TranscriptionResult.make t c pt mu) = true ↔
        (0 ≤ c ∧ c ≤ 1 ∧ 0 ≤ pt ∧ mu ≠ "")) := by
  constructor
  · intro fp af of
    unfold AudioRequest.make
    repeat' split
    all_goals simp_all [pyOk]
  · intro t c pt mu
    unfold TranscriptionResult.make
    repeat' split
    all_goals simp_all [pyOk]

/-- Counterexample to **C6** as stated: with a custom response registered
under the key `"empty"`, a successful `transcribe` on a file whose name
contains `"empty"` returns the custom text, not the empty string the
claim's first rule promises — the custom responses are merged into the
response table and override the canned entry. -/
theorem c6_counterexample :
    substrIn "empty" (lastPathComponent "/test/empty.wav") = true ∧
    ((transcribe
        { mkModel (ModelParams.mk 0 0 1 1 [("empty", "Custom override")] false "mock")
          with is_loaded := true }
        (AudioRequest.mk "/test/empty.wav" "wav" "text") (Draws.mk 1 1 0)).1).map
      TranscriptionResult.text = .ok "Custom override" := by
  refine ⟨by decide, ?_⟩
  unfold transcribe
  rw [show validate_request
      { mkModel (ModelParams.mk 0 0 1 1 [("empty", "Custom override")] false "mock")
        with is_loaded := true }
      (AudioRequest.mk "/test/empty.wav" "wav" "text") = .ok () from by decide]
  dsimp only [mkModel]
  rw [if_neg (by norm_num : ¬ ((1 : ℚ) < 0))]
  unfold TranscriptionResult.make
  rw [if_neg (by norm_num : ¬ ¬ ((0 : ℚ) ≤ 1 ∧ (1 : ℚ) ≤ 1))]
  rw [if_neg (by norm_num : ¬ ((0 : ℚ) + 0 < 0))]
  rw [if_neg (by decide : ¬ ("mock-" ++ "mock" = ""))]
  dsimp only [Except.map]
  decide

/-- **C6 (amended).** For every successful `transcribe`, the response key is
selected by first-match-wins over the lowercased file name in the order:
`"empty"`/`"silent"`, then `"long"`/`"extended"`, then the first registered
custom key occurring verbatim in the (lowercased) name, else `"default"` —
and the returned text is the merged response table's entry for that key
(so custom responses registered under `"empty"`, `"long"` or `"default"`
override the canned texts, and custom keys containing uppercase never
match). -/
theorem c6_response_selection_amended (p : ModelParams) (request : AudioRequest)
    (rnd : Draws) (r : TranscriptionResult)
    (h : (transcribe { mkModel p with is_loaded := true } request rnd).1 = .ok r) :
    ((substrIn "empty" (lastPathComponent request.file_path) = true ∨
        substrIn "silent" (lastPathComponent request.file_path) = true) →
      r.text = responseFor p "empty") ∧
    (¬ (substrIn "empty" (lastPathComponent request.file_path) = true ∨
        substrIn "silent" (lastPathComponent request.file_path) = true) →
      (substrIn "long" (lastPathComponent request.file_path) = true ∨
        substrIn "extended" (lastPathComponent request.file_path) = true) →
      r.text = responseFor p "long") ∧
    (∀ kv : String × String,
      ¬ (substrIn "empty" (lastPathComponent request.file_path) = true ∨
        substrIn "silent" (lastPathComponent request.file_path) = true) →
      ¬ (substrIn "long" (lastPathComponent request.file_path) = true ∨
        substrIn "extended" (lastPathComponent request.file_path) = true) →
      p.custom_responses.find?
          (fun kv' => substrIn kv'.1 (lastPathComponent request.file_path)) = some kv →
      r.text = responseFor p kv.1) ∧
    (¬ (substrIn "empty" (lastPathComponent request.file_path) = true ∨
        substrIn "silent" (lastPathComponent request.file_path) = true) →
      ¬ (substrIn "long" (lastPathComponent request.file_path) = true ∨
        substrIn "extended" (lastPathComponent request.file_path) = true) →
      p.custom_responses.find?
          (fun kv' => substrIn kv'.1 (lastPathComponent request.file_path)) = none →
      r.text = responseFor p "default") := by
  have htext : r.text =
      responseFor p (get_response_key { mkModel p with is_loaded := true }
        request.file_path) := by
    unfold transcribe at h
    split at h
    · exact absurd h (by simp)
    · dsimp only at h
      split at h
      · exact absurd h (by simp)
      · unfold TranscriptionResult.make at h
        split at h
        · exact absurd h (by simp)
        · split at h
          · exact absurd h (by simp)
          · split at h
            · exact absurd h (by simp)
            · injection h with h
              rw [← h]
              rfl
  refine ⟨fun hc => ?_, fun hc1 hc2 => ?_, fun kv hc1 hc2 hf => ?_,
    fun hc1 hc2 hf => ?_⟩
  · rw [htext]; congr 1
    unfold get_response_key
    rcases hc with hc | hc <;> simp [hc]
  · rw [htext]; congr 1
    unfold get_response_key
    simp only [not_or, Bool.not_eq_true] at hc1
    rcases hc2 with hc2 | hc2 <;> simp [hc1.1, hc1.2, hc2]
  · rw [htext]; congr 1
    unfold get_response_key
    simp only [not_or, Bool.not_eq_true] at hc1 hc2
    simp [mkModel, hc1.1, hc1.2, hc2.1, hc2.2, hf]
  · rw [htext]; congr 1
    unfold get_response_key
    simp only [not_or, Bool.not_eq_true] at hc1 hc2
    simp [mkModel, hc1.1, hc1.2, hc2.1, hc2.2, hf]

/-- Witness for the amended C6: with custom key `"foo"` registered, a
successful call on `/test/myfoo.mp3` (no `"empty"`/`"silent"`/`"long"`/
`"extended"` in the name) returns the custom text for `"foo"`. -/
theorem c6_response_selection_amended_witness :
    (TranscriptionResult.mk "Bar" 1 (0 + 0) "mock-mock").text =
      responseFor (ModelParams.mk 0 0 1 1 [("foo", "Bar")] false "mock") "foo" :=
  (c6_response_selection_amended
      (ModelParams.mk 0 0 1 1 [("foo", "Bar")] false "mock")
      (AudioRequest.mk "/test/myfoo.mp3" "mp3" "text") (Draws.mk 1 1 0)
      (TranscriptionResult.mk "Bar" 1 (0 + 0) "mock-mock")
      (by
        unfold transcribe
        rw [show validate_request
            { mkModel (ModelParams.mk 0 0 1 1 [("foo", "Bar")] false "mock")
              with is_loaded := true }
            (AudioRequest.mk "/test/myfoo.mp3" "mp3" "text") = .ok () from by decide]
        dsimp only [mkModel]
        rw [if_neg (by norm_num : ¬ ((1 : ℚ) < 0))]
        unfold TranscriptionResult.make
        rw [if_neg (by norm_num : ¬ ¬ ((0 : ℚ) ≤ 1 ∧ (1 : ℚ) ≤ 1))]
        rw [if_neg (by norm_num : ¬ ((0 : ℚ) + 0 < 0))]
        rw [if_neg (by decide : ¬ ("mock-" ++ "mock" = ""))]
        dsimp only
        congr 1)).2.2.1
    ("foo", "Bar") (by decide) (by decide) (by decide)

end STT
